import Mathlib

set_option linter.unusedVariables false

/-
Formal model of `src/patient-case-summary/app.py`.

The file embeds, as executable Lean definitions, the parts of the program
that the verified properties talk about:

  * the FHIR-bundle parser `parse_synthea_patient` (app.py lines 73-191),
    including its Python error behaviour (`ValueError` when no Patient
    resource is present, `IndexError` from `[0]` on a present-but-empty
    list, the `datetime.min` `AttributeError` slip in
    `get_encounter_date`, and `dateutil` parser failures);
  * the fan-out / fan-in steps `dispatch_guideline_match` /
    `gather_guideline_match` of `GuidelineRecommendationWorkflow`
    (lines 496-592) together with a model of the workflow library's
    `ctx.collect_events` buffering;
  * the per-stage cache behaviour and external-capability call counts of
    the workflow steps (lines 445-622);
  * the retrieved-document deduplication dictionary of
    `handle_guideline_match` (lines 528-539);
  * the step registration table induced by the `@step` signatures
    (lines 445-622).

Parts of the runtime that live in the workflow library rather than in the
repository (the event router, `Context`, `collect_events`, error
propagation) are modelled from the specification; each such definition
carries a doc comment starting with `Modelled from the spec:`.
-/

namespace PatientCaseSummary

/-- Python exception kinds that `parse_synthea_patient` can raise.
`valueError` corresponds to a plain `raise ValueError(...)` (app.py
line 97), `indexError` to indexing `[0]` into an empty list,
`attributeError` to the `datetime.min` slip in `get_encounter_date`
(line 145: `import datetime` imports the module, which has no attribute
`min`), and `parserError` to `dateutil.parser.parse` failing on an
unparseable date string.  Note that `dateutil.parser.ParserError`
subclasses `ValueError` (and before dateutil 2.8.1 the parser raised a
plain `ValueError`), so `parserError` counts as a `ValueError` for
`isinstance` / `except ValueError` purposes — see
`PyErr.isValueError`. -/
inductive PyErr where
  | valueError (msg : String)
  | indexError
  | attributeError
  | parserError
deriving DecidableEq, Repr

/-- Python `isinstance(e, ValueError)` for the modelled exceptions: a
plain `ValueError` is one, and so is `dateutil.parser.ParserError`, which
subclasses `ValueError` (before dateutil 2.8.1 it was a plain
`ValueError`); `IndexError` and `AttributeError` are not. -/
def PyErr.isValueError : PyErr → Bool
  | .valueError _ => true
  | .parserError => true
  | .indexError => false
  | .attributeError => false

/-- Coding entry of a FHIR `coding` list: the `code` / `display` fields,
each possibly absent. -/
structure Coding where
  code : Option String := none
  display : Option String := none
deriving DecidableEq, Repr

/-- CodeableConcept: a `coding` key that is either absent (`none`) or a
(possibly empty) list. -/
structure CodeableConcept where
  coding : Option (List Coding) := none
deriving DecidableEq, Repr

/-- Entry of a FHIR Patient `name` list. -/
structure HumanName where
  given : Option (List String) := none
  family : Option String := none
deriving DecidableEq, Repr

/-- Entry of a FHIR `dosageInstruction` list. -/
structure Dosage where
  text : Option String := none
deriving DecidableEq, Repr

/-- Shallow model of one FHIR resource, holding exactly the fields that
`parse_synthea_patient` reads.  A field of type `Option (List _)` is
`none` when the JSON key is missing (so Python's `.get(key, default)`
yields the default) and `some l` when present, `l` possibly empty (so
`[0]` can raise `IndexError`).  `periodStart` collapses
`resource.get("period", {}).get("start")`. -/
structure Resource where
  resourceType : Option String := none
  name : Option (List HumanName) := none
  birthDate : Option String := none
  gender : Option String := none
  code : Option CodeableConcept := none
  clinicalStatus : Option CodeableConcept := none
  periodStart : Option String := none
  reasonCode : Option (List CodeableConcept) := none
  type : Option (List CodeableConcept) := none
  status : Option String := none
  medicationCodeableConcept : Option CodeableConcept := none
  authoredOn : Option String := none
  dosageInstruction : Option (List Dosage) := none
deriving DecidableEq, Repr

/-- Output record model of `ConditionInfo` (app.py lines 39-42). -/
structure ConditionInfo where
  code : String
  display : String
  clinical_status : String
deriving DecidableEq, Repr

/-- Output record model of `EncounterInfo` (app.py lines 44-47). -/
structure EncounterInfo where
  date : String
  reason_display : Option String
  type_display : Option String
deriving DecidableEq, Repr

/-- Output record model of `MedicationInfo` (app.py lines 49-52). -/
structure MedicationInfo where
  name : String
  start_date : Option String
  instructions : Option String
deriving DecidableEq, Repr

/-- Output record model of `PatientInfo` (app.py lines 54-61). -/
structure PatientInfo where
  given_name : String
  family_name : String
  birth_date : String
  gender : String
  conditions : List ConditionInfo
  recent_encounters : List EncounterInfo
  current_medications : List MedicationInfo
deriving DecidableEq, Repr

/-- Structurally recursive monadic map over `Except`; the translation of a
Python `for` loop whose body may raise, appending one output per input. -/
def mapME {ε α β : Type} (f : α → Except ε β) : List α → Except ε (List β)
  | [] => .ok []
  | x :: xs => do
    let y ← f x
    let ys ← mapME f xs
    .ok (y :: ys)

/-- Python `opt_list[0]`-with-default pattern `d.get(key, [dflt])[0]`:
missing key gives the default element, a present empty list raises
`IndexError`, otherwise the head is taken. -/
def firstOr {α : Type} (l : Option (List α)) (dflt : α) : Except PyErr α :=
  match l with
  | none => .ok dflt
  | some [] => .error .indexError
  | some (x :: _) => .ok x

/-- Translation of `r.get(key, {}).get("coding", [{}])[0]` (app.py
lines 110, 113-116, 169): an absent CodeableConcept or an absent `coding`
key gives the empty Coding `{}`; a present empty `coding` list raises
`IndexError`. -/
def firstCoding (cc : Option CodeableConcept) : Except PyErr Coding :=
  match cc with
  | none => .ok {}
  | some c =>
    match c.coding with
    | none => .ok {}
    | some [] => .error .indexError
    | some (x :: _) => .ok x

/-- Translation of `e.get(key, [{}])[0].get("coding", [{}])[0].get("display", None)`
(app.py lines 154-155). -/
def firstCodingDisplay (ccs : Option (List CodeableConcept)) :
    Except PyErr (Option String) :=
  match ccs with
  | none => .ok none
  | some [] => .error .indexError
  | some (cc :: _) =>
    match cc.coding with
    | none => .ok none
    | some [] => .error .indexError
    | some (cd :: _) => .ok cd.display

/-- Translation of `m.get("dosageInstruction", [{}])[0].get("text", None)`
(app.py line 172). -/
def firstDosageText (ds : Option (List Dosage)) : Except PyErr (Option String) :=
  match ds with
  | none => .ok none
  | some [] => .error .indexError
  | some (d :: _) => .ok d.text

/-- Classification loop of app.py lines 83-94, `Patient` branch: the
variable `patient_resource` is overwritten by every Patient entry, so it
ends up holding the last one. -/
def lastPatient (entries : List Resource) : Option Resource :=
  entries.foldl
    (fun acc r => if r.resourceType = some "Patient" then some r else acc) none

/-- Classification loop of app.py lines 83-94, `Condition` branch. -/
def conditionResources (entries : List Resource) : List Resource :=
  entries.filter (fun r => r.resourceType = some "Condition")

/-- Classification loop of app.py lines 83-94, `Encounter` branch. -/
def encounterResources (entries : List Resource) : List Resource :=
  entries.filter (fun r => r.resourceType = some "Encounter")

/-- Classification loop of app.py lines 83-94, `MedicationRequest` branch. -/
def medicationResources (entries : List Resource) : List Resource :=
  entries.filter (fun r => r.resourceType = some "MedicationRequest")

/-- Demographics extraction of app.py lines 100-104: given name, family
name, birth date, gender with their empty-string defaults. -/
def extractDemographics (pr : Resource) :
    Except PyErr (String × String × String × String) := do
  let name_entry ← firstOr pr.name {}
  let given_name ← firstOr name_entry.given ""
  .ok (given_name, name_entry.family.getD "", pr.birthDate.getD "",
       pr.gender.getD "")

/-- Exclusion set of app.py line 107. -/
def excludedConditions : List String :=
  ["Medication review due (situation)", "Risk activity involvement (finding)"]

/-- Field extraction for one Condition resource (app.py lines 110-117). -/
def extractConditionInfo (c : Resource) : Except PyErr ConditionInfo := do
  let code_info ← firstCoding c.code
  let clin ← firstCoding c.clinicalStatus
  .ok { code := code_info.code.getD "Unknown"
        display := code_info.display.getD "Unknown"
        clinical_status := clin.code.getD "unknown" }

/-- Condition loop of app.py lines 108-138: extract each condition's
fields, then keep it unless its display is excluded, additionally
requiring `clinical_status == "active"` when `filter_active` is set. -/
def buildConditions (filter_active : Bool) :
    List Resource → Except PyErr (List ConditionInfo)
  | [] => .ok []
  | c :: rest => do
    let ci ← extractConditionInfo c
    let tail ← buildConditions filter_active rest
    if ci.display ∈ excludedConditions then .ok tail
    else if filter_active then
      if ci.clinical_status = "active" then .ok (ci :: tail) else .ok tail
    else .ok (ci :: tail)

/-- Translation of `get_encounter_date` (app.py lines 141-145).  A missing
or empty `period.start` takes the `datetime.min` branch, which raises
`AttributeError` because line 4 imports the `datetime` module (which has
no `min` attribute).  Otherwise `dateutil.parser.parse` is applied,
modelled by the external `parseDate` argument; `none` means the parser
raised `ParserError`, which subclasses `ValueError` (it IS a `ValueError`
for `except ValueError` purposes, see `PyErr.isValueError`). -/
def get_encounter_date (parseDate : String → Option Int) (e : Resource) :
    Except PyErr Int :=
  match e.periodStart with
  | none => .error .attributeError
  | some s =>
    if s = "" then .error .attributeError
    else
      match parseDate s with
      | none => .error .parserError
      | some d => .ok d

/-- EncounterInfo construction for one recent encounter (app.py
lines 152-162). -/
def buildEncounterInfo (e : Resource) : Except PyErr EncounterInfo := do
  let reason ← firstCodingDisplay e.reasonCode
  let etype ← firstCodingDisplay e.type
  .ok { date := e.periodStart.getD "", reason_display := reason,
        type_display := etype }

/-- Sort relation of the encounter pipeline: compare resources by their
parsed date key (the `key=get_encounter_date` of app.py line 147). -/
def encLE (a b : Resource × Int) : Prop := a.2 ≤ b.2

instance : DecidableRel encLE := fun a b => inferInstanceAs (Decidable (a.2 ≤ b.2))

instance : IsTotal (Resource × Int) encLE := ⟨fun a b => le_total a.2 b.2⟩

instance : IsTrans (Resource × Int) encLE := ⟨fun _ _ _ h h2 => le_trans h h2⟩

/-- Key computation of app.py line 147: Python's `sorted` evaluates the
key function once per element, in list order, before sorting. -/
def encounterKeyed (parseDate : String → Option Int)
    (encounters : List Resource) : Except PyErr (List (Resource × Int)) :=
  mapME (fun e => do
    let d ← get_encounter_date parseDate e
    .ok (e, d)) encounters

/-- Slice of app.py line 148:
`encounters_sorted[-3:] if len(encounters_sorted) > 3 else encounters_sorted`. -/
def lastThree (encounters_sorted : List (Resource × Int)) :
    List (Resource × Int) :=
  if encounters_sorted.length > 3 then
    encounters_sorted.drop (encounters_sorted.length - 3)
  else encounters_sorted

/-- Encounter pipeline of app.py lines 140-162: compute every encounter's
sort key, stable-sort ascending by date (Python's `sorted` is a stable
sort, as is insertion sort by a non-strict order), keep the last three
(`[-3:]`) when more than three, and build `EncounterInfo` records for the
kept ones. -/
def encounterPipeline (parseDate : String → Option Int)
    (encounters : List Resource) : Except PyErr (List EncounterInfo) := do
  let keyed ← encounterKeyed parseDate encounters
  mapME (fun p => buildEncounterInfo p.1)
    (lastThree (List.insertionSort encLE keyed))

/-- Medication loop of app.py lines 165-179: keep only requests whose
`status` is `"active"`. -/
def buildMedications : List Resource → Except PyErr (List MedicationInfo)
  | [] => .ok []
  | m :: rest =>
    if m.status = some "active" then do
      let med_code ← firstCoding m.medicationCodeableConcept
      let dosage ← firstDosageText m.dosageInstruction
      let tail ← buildMedications rest
      .ok ({ name := med_code.display.getD "Unknown Medication",
             start_date := m.authoredOn, instructions := dosage } :: tail)
    else buildMedications rest

/-- Translation of `parse_synthea_patient` (app.py lines 73-191) over the
resources of the loaded bundle's entries.  `parseDate` stands for the
external `dateutil.parser.parse`.  Raises `ValueError` when no Patient
resource was seen (line 96-97), then extracts demographics, conditions,
recent encounters and active medications in source order. -/
def parse_synthea_patient (parseDate : String → Option Int)
    (entries : List Resource) (filter_active : Bool := true) :
    Except PyErr PatientInfo :=
  match lastPatient entries with
  | none => .error (.valueError "No Patient resource found in the provided file.")
  | some patient_resource => do
    let demog ← extractDemographics patient_resource
    let conditions ← buildConditions filter_active (conditionResources entries)
    let recents ← encounterPipeline parseDate (encounterResources entries)
    let meds ← buildMedications (medicationResources entries)
    .ok { given_name := demog.1, family_name := demog.2.1,
          birth_date := demog.2.2.1, gender := demog.2.2.2,
          conditions := conditions, recent_encounters := recents,
          current_medications := meds }

/-- Record model of `ConditionBundle` (app.py lines 194-197). -/
structure ConditionBundle where
  condition : ConditionInfo
  encounters : List EncounterInfo := []
  medications : List MedicationInfo := []
deriving DecidableEq, Repr

/-- Record model of `GuidelineRecommendation` (app.py lines 267-270). -/
structure GuidelineRecommendation where
  guideline_source : String
  recommendation_summary : String
  reference_section : Option String := none
deriving DecidableEq, Repr

/-- Event model of `MatchGuidelineEvent` (app.py lines 401-402). -/
structure MatchGuidelineEvent where
  bundle : ConditionBundle
deriving DecidableEq, Repr

/-- Event model of `MatchGuidelineResultEvent` (app.py lines 405-407); the
source field `rec` is spelled `rec'` because `rec` is reserved in Lean. -/
structure MatchGuidelineResultEvent where
  bundle : ConditionBundle
  rec' : GuidelineRecommendation
deriving DecidableEq, Repr

/-- Event model of `GenerateCaseSummaryEvent` (app.py lines 410-411). -/
structure GenerateCaseSummaryEvent where
  condition_guideline_info : List (ConditionBundle × GuidelineRecommendation)
deriving DecidableEq, Repr

/-- Translation of `dispatch_guideline_match` (app.py lines 496-508): the
step writes `num_conditions := len(bundles)` to the Context and sends one
`MatchGuidelineEvent` per bundle.  The pair returned is (the value
written, the events emitted). -/
def dispatch_guideline_match (bundles : List ConditionBundle) :
    Nat × List MatchGuidelineEvent :=
  (bundles.length, bundles.map (fun bundle => ⟨bundle⟩))

/-- Output of one `handle_guideline_match` invocation (app.py
lines 510-572): the recommendation computed by the external
structured-generation capability is abstracted as `recOf`; the step
returns `MatchGuidelineResultEvent(bundle=ev.bundle, rec=...)`
(line 572). -/
def handle_guideline_match_result
    (recOf : ConditionBundle → GuidelineRecommendation)
    (ev : MatchGuidelineEvent) : MatchGuidelineResultEvent :=
  ⟨ev.bundle, recOf ev.bundle⟩

/-- Modelled from the spec: `ctx.collect_events` (used at app.py line 580)
lives in the workflow library, which is not part of the repository.  Per
the Barrier Collector contract (spec sections 3 and 4.3) each submitted
event is appended to the group's buffer and, exactly when the received
count reaches the expected count, the buffer is consumed and the
collected events are returned; otherwise nothing is returned. -/
def collect_events (expected : Nat) (buffer : List MatchGuidelineResultEvent)
    (ev : MatchGuidelineResultEvent) :
    List MatchGuidelineResultEvent × Option (List MatchGuidelineResultEvent) :=
  let received := buffer ++ [ev]
  if received.length = expected then ([], some received) else (received, none)

/-- Translation of `gather_guideline_match` (app.py lines 574-592): on one
arriving `MatchGuidelineResultEvent` the step reads `num_conditions`,
calls `collect_events`, and — only when the collection is complete —
emits one `GenerateCaseSummaryEvent` carrying the `(bundle, rec)` pair of
every collected event. -/
def gather_guideline_match (num_conditions : Nat)
    (buffer : List MatchGuidelineResultEvent)
    (ev : MatchGuidelineResultEvent) :
    List MatchGuidelineResultEvent × Option GenerateCaseSummaryEvent :=
  match collect_events num_conditions buffer ev with
  | (buf, none) => (buf, none)
  | (buf, some events) => (buf, some ⟨events.map (fun e => (e.bundle, e.rec'))⟩)

/-- Fan-in run: the dispatched children's result events arrive in some
order; each arrival triggers one invocation of `gather_guideline_match`
against the shared collect buffer.  The step is only ever invoked on an
arriving `MatchGuidelineResultEvent`, so an empty arrival list triggers no
invocation at all.  Returns every `GenerateCaseSummaryEvent` emitted. -/
def gatherRun (num_conditions : Nat) (buffer : List MatchGuidelineResultEvent) :
    List MatchGuidelineResultEvent → List GenerateCaseSummaryEvent
  | [] => []
  | ev :: rest =>
    match gather_guideline_match num_conditions buffer ev with
    | (buf, none) => gatherRun num_conditions buf rest
    | (buf, some g) => g :: gatherRun num_conditions buf rest

/-- Result events produced by the fan-out children: one per dispatched
`MatchGuidelineEvent`. -/
def childResults (recOf : ConditionBundle → GuidelineRecommendation)
    (bundles : List ConditionBundle) : List MatchGuidelineResultEvent :=
  (dispatch_guideline_match bundles).2.map (handle_guideline_match_result recOf)

/-- Terminal behaviour downstream of the fan-in: `generate_output`
(app.py lines 594-622) consumes each `GenerateCaseSummaryEvent` and
returns exactly one `StopEvent`, so the number of terminal results of a
run equals the number of gathered events emitted. -/
def stopEventCount (num_conditions : Nat)
    (arrivals : List MatchGuidelineResultEvent) : Nat :=
  (gatherRun num_conditions [] arrivals).length

/-- Modelled from the spec: scheduler error propagation (spec sections 4.2
and 7) lives in the workflow library, which is not part of the
repository.  Awaiting the run handle joins the children in order; a child
that raised aborts the whole run with that error (cooperative
cancellation: later children are not consulted) and the caller receives
no pairs.  `outcomes` lists each child's termination: `.ok` a result
event, or `.error` a raised capability error. -/
def await_run (outcomes : List (Except String MatchGuidelineResultEvent)) :
    Except String (List (ConditionBundle × GuidelineRecommendation)) := do
  let results ← mapME id outcomes
  .ok (results.map (fun e => (e.bundle, e.rec')))

/-- Modelled from the spec: the run Context (spec section 4.4) lives in
the workflow library, which is not part of the repository; `ctx.set`
records a binding for the key, shadowing any earlier one. -/
def ctxSet {α : Type} (store : List (String × α)) (key : String) (v : α) :
    List (String × α) :=
  (key, v) :: store

/-- Modelled from the spec: `ctx.get` (spec section 4.4) returns the value
most recently stored under the key and raises a usage error on a missing
key rather than returning a silent default. -/
def ctxGet {α : Type} (store : List (String × α)) (key : String) :
    Except PyErr α :=
  match store.find? (fun p => p.1 == key) with
  | some p => .ok p.2
  | none => .error (.valueError ("Key " ++ key ++ " not found in Context"))

/-- Event types of the workflow: the event classes of app.py
lines 393-415 plus the library's `StartEvent` and `StopEvent`. -/
inductive EvType where
  | startEv
  | patientInfoEv
  | conditionBundleEv
  | matchGuidelineEv
  | matchGuidelineResultEv
  | generateCaseSummaryEv
  | stopEv
  | logEv
deriving DecidableEq, Repr

/-- One `@step` registration: the step's name, its declared input event
type and its declared output event type. -/
structure StepDecl where
  name : String
  input : EvType
  output : EvType
deriving DecidableEq, Repr

/-- Registration table of `GuidelineRecommendationWorkflow`, read off the
`@step` method signatures (app.py lines 445-622). -/
def guidelineWorkflowSteps : List StepDecl :=
  [⟨"parse_patient_info", .startEv, .patientInfoEv⟩,
   ⟨"create_condition_bundles", .patientInfoEv, .conditionBundleEv⟩,
   ⟨"dispatch_guideline_match", .conditionBundleEv, .matchGuidelineEv⟩,
   ⟨"handle_guideline_match", .matchGuidelineEv, .matchGuidelineResultEv⟩,
   ⟨"gather_guideline_match", .matchGuidelineResultEv, .generateCaseSummaryEv⟩,
   ⟨"generate_output", .generateCaseSummaryEv, .stopEv⟩]

/-- Steps of a registration table declared to consume event type `t`. -/
def consumersOf (steps : List StepDecl) (t : EvType) : List String :=
  (steps.filter (fun s => s.input == t)).map (fun s => s.name)

/-- Event types that must be routable in a registration table: the
declared outputs plus the entry event, excluding the terminal and log
events, which never drive step dispatch (spec section 3). -/
def routableTypes (steps : List StepDecl) : List EvType :=
  ((steps.map (fun s => s.output)) ++ ([.startEv] : List EvType)).filter
    (fun t => !(t == .stopEv) && !(t == .logEv))

/-- Modelled from the spec: construction-time validation (spec sections 3
and 4.1) lives in the workflow library, which is not part of the
repository.  Building a workflow checks that every routable event type
has exactly one declared consuming step and rejects the table as a
configuration error otherwise; routing is never re-checked at run
time. -/
def constructWorkflow (steps : List StepDecl) : Except String (List StepDecl) :=
  if (routableTypes steps).all (fun t => (consumersOf steps t).length == 1) then
    .ok steps
  else
    .error "Configuration error: an event type lacks a unique consuming step"

/-- Cached artifacts that a run's output directory may contain
(app.py lines 450-453, 482-488, 586-589). -/
structure CacheState where
  patient_info_exists : Bool
  condition_bundles_exists : Bool
  guideline_recommendations_exists : Bool
deriving DecidableEq, Repr

/-- External capability calls (structured generation plus retrieval) made
by `parse_patient_info` (app.py lines 445-474): neither branch of its
cache check calls a capability. -/
def parse_patient_info_capability_calls (cache : CacheState) : Nat := 0

/-- Capability calls made by `create_condition_bundles` (app.py
lines 476-494): skipped entirely when `condition_bundles.json` exists,
otherwise one `astructured_predict` (line 490, via line 235). -/
def create_condition_bundles_capability_calls (cache : CacheState) : Nat :=
  if cache.condition_bundles_exists then 0 else 1

/-- Capability calls made by one `handle_guideline_match` invocation
(app.py lines 510-572): one `astructured_predict` for the queries
(line 521), one `guideline_retriever.retrieve` per generated query
(line 534), and one `astructured_predict` for the recommendation
(line 552).  The step body contains no cache check, so the count does not
depend on the cache state. -/
def handle_guideline_match_capability_calls (cache : CacheState)
    (numQueries : Nat) : Nat :=
  1 + numQueries + 1

/-- Capability calls made by `gather_guideline_match` (app.py
lines 574-592): none (it only writes `guideline_recommendations.jsonl`,
which no step ever reads back). -/
def gather_guideline_match_capability_calls (cache : CacheState) : Nat := 0

/-- Capability calls made by `generate_output` (app.py lines 594-622): one
`astructured_predict` (line 615), with no cache check in the body. -/
def generate_output_capability_calls (cache : CacheState) : Nat := 1

/-- Total external capability calls of one workflow run, where
`queryCounts` lists, for each dispatched condition bundle, how many
queries the guideline-queries generation returned for it. -/
def totalCapabilityCalls (cache : CacheState) (queryCounts : List Nat) : Nat :=
  parse_patient_info_capability_calls cache +
  create_condition_bundles_capability_calls cache +
  (queryCounts.map (handle_guideline_match_capability_calls cache)).sum +
  gather_guideline_match_capability_calls cache +
  generate_output_capability_calls cache

/-- Cache state in which every stage's artifact is present. -/
def fullCache : CacheState := ⟨true, true, true⟩

/-- Node returned by the retrieval capability: its id and its text
content (spec section 6). -/
structure RetrievedDoc where
  id_ : String
  content : String
deriving DecidableEq, Repr

/-- Python dictionary assignment `dict[d.id_] = d`: a key already present
keeps its position and has its value replaced; a new key is appended. -/
def dictInsert (m : List (String × RetrievedDoc)) (d : RetrievedDoc) :
    List (String × RetrievedDoc) :=
  if m.any (fun p => p.1 == d.id_) then
    m.map (fun p => if p.1 == d.id_ then (p.1, d) else p)
  else m ++ [(d.id_, d)]

/-- Python `guideline_docs_dict.update({d.id_: d for d in docs})` (app.py
lines 535-537): every retrieved document is assigned under its id. -/
def dictUpdate (m : List (String × RetrievedDoc)) (docs : List RetrievedDoc) :
    List (String × RetrievedDoc) :=
  docs.foldl dictInsert m

/-- Retrieval loop of `handle_guideline_match` (app.py lines 528-538):
each query's retrieved documents are merged into `guideline_docs_dict`
keyed by `d.id_`, and the dictionary's values are the documents used. -/
def guideline_docs (retrieve : String → List RetrievedDoc)
    (queries : List String) : List RetrievedDoc :=
  (queries.foldl (fun m query => dictUpdate m (retrieve query)) []).map
    (fun p => p.2)

/-- Guideline text passed to the recommendation prompt (app.py
line 539). -/
def guideline_text (docs : List RetrievedDoc) : String :=
  String.intercalate "\n\n" (docs.map (fun d => d.content))

/-
Concrete inputs used by witnesses and counterexamples.
-/

/-- Date parser used on concrete inputs: the parsed key of a date string
is its length (any injective-on-usage assignment works for the
witnesses). -/
def pdW : String → Option Int := fun s => some (s.length : Int)

/-- Date parser that fails on every string, modelling
`dateutil.parser.parse` raising `ParserError` on unparseable input. -/
def pdNone : String → Option Int := fun _ => none

/-- Patient resource whose given name is Alpha. -/
def patAlpha : Resource :=
  { resourceType := some "Patient"
    name := some [{ given := some ["Alpha"], family := some "Smith" }]
    birthDate := some "1990-01-01", gender := some "female" }

/-- Patient resource whose given name is Beta. -/
def patBeta : Resource :=
  { resourceType := some "Patient"
    name := some [{ given := some ["Beta"], family := some "Jones" }] }

/-- Encounter resource with the given `period.start` string. -/
def encW (s : String) : Resource :=
  { resourceType := some "Encounter", periodStart := some s }

/-- Active asthma condition resource. -/
def condAsthma : Resource :=
  { resourceType := some "Condition"
    code := some { coding := some [{ code := some "233678006",
                                     display := some "Childhood asthma (disorder)" }] }
    clinicalStatus := some { coding := some [{ code := some "active" }] } }

/-- Resolved (non-active) condition resource. -/
def condResolved : Resource :=
  { resourceType := some "Condition"
    code := some { coding := some [{ code := some "1",
                                     display := some "Otitis media" }] }
    clinicalStatus := some { coding := some [{ code := some "resolved" }] } }

/-- Condition resource whose display is on the exclusion list. -/
def condExcluded : Resource :=
  { resourceType := some "Condition"
    code := some { coding := some [{ code := some "2",
                                     display := some "Medication review due (situation)" }] }
    clinicalStatus := some { coding := some [{ code := some "active" }] } }

/-- Condition bundle used by workflow witnesses. -/
def bundleW1 : ConditionBundle :=
  { condition := { code := "233678006",
                   display := "Childhood asthma (disorder)",
                   clinical_status := "active" } }

/-- Second condition bundle used by workflow witnesses. -/
def bundleW2 : ConditionBundle :=
  { condition := { code := "24079001",
                   display := "Atopic dermatitis (disorder)",
                   clinical_status := "active" } }

/-- Recommendation assignment used by workflow witnesses: each bundle gets
a recommendation naming its condition. -/
def recW : ConditionBundle → GuidelineRecommendation :=
  fun b => { guideline_source := "NHLBI Guidelines",
             recommendation_summary := b.condition.display,
             reference_section := none }

/-- ConditionInfo extracted from `condAsthma`. -/
def ciAsthma : ConditionInfo :=
  { code := "233678006", display := "Childhood asthma (disorder)",
    clinical_status := "active" }

/-- PatientInfo produced by parsing
`[patAlpha, condAsthma, condResolved, condExcluded]` with the active
filter on. -/
def infoC : PatientInfo :=
  { given_name := "Alpha", family_name := "Smith",
    birth_date := "1990-01-01", gender := "female",
    conditions := [ciAsthma], recent_encounters := [],
    current_medications := [] }

/-- PatientInfo produced by parsing `patAlpha` together with four
encounters dated (by `pdW` key, the string length) 1, 4, 2, 3. -/
def infoE : PatientInfo :=
  { given_name := "Alpha", family_name := "Smith",
    birth_date := "1990-01-01", gender := "female",
    conditions := [],
    recent_encounters :=
      [{ date := "22", reason_display := none, type_display := none },
       { date := "333", reason_display := none, type_display := none },
       { date := "4444", reason_display := none, type_display := none }],
    current_medications := [] }

/-- Proposition that an Except outcome is not an error built with the
`PyErr.valueError` constructor, i.e. not a plain `ValueError`.  (The
`ParserError` subclass of `ValueError` is the separate constructor
`PyErr.parserError` and is NOT excluded by this predicate.) -/
def VEFree {β : Type} (x : Except PyErr β) : Prop :=
  ∀ msg, x ≠ .error (.valueError msg)

end PatientCaseSummary

deriving instance DecidableEq for Except

namespace PatientCaseSummary

/-
General lemmas about the Except embedding.
-/

theorem bindE_ok {ε α β : Type} (a : α) (f : α → Except ε β) :
    (Except.ok a >>= f) = f a := rfl

theorem bindE_error {ε α β : Type} (e : ε) (f : α → Except ε β) :
    ((Except.error e : Except ε α) >>= f) = Except.error e := rfl

theorem mapME_ok_iff {ε α β : Type} (f : α → Except ε β) (l : List α)
    (ys : List β) :
    mapME f l = .ok ys ↔ List.Forall₂ (fun a b => f a = .ok b) l ys := by
  induction l generalizing ys with
  | nil =>
    simp only [mapME]
    constructor
    · intro h
      cases h
      exact List.Forall₂.nil
    · intro h
      cases h
      rfl
  | cons x xs ih =>
    simp only [mapME]
    constructor
    · intro h
      cases hfx : f x with
      | error e =>
        rw [hfx, bindE_error] at h
        cases h
      | ok y =>
        rw [hfx, bindE_ok] at h
        cases hxs : mapME f xs with
        | error e =>
          rw [hxs, bindE_error] at h
          cases h
        | ok ys2 =>
          rw [hxs, bindE_ok] at h
          cases h
          exact List.Forall₂.cons hfx ((ih ys2).mp hxs)
    · intro h
      cases h with
      | cons hxy htail =>
        rename_i y ys2
        rw [hxy, bindE_ok, (ih ys2).mpr htail, bindE_ok]

theorem mapME_ok_length {ε α β : Type} (f : α → Except ε β) (l : List α)
    (ys : List β) (h : mapME f l = .ok ys) : ys.length = l.length :=
  (List.Forall₂.length_eq ((mapME_ok_iff f l ys).mp h)).symm

theorem mapME_error_shape {ε α β : Type} (f : α → Except ε β) (l : List α)
    (e : ε) (h : mapME f l = .error e) : ∃ x ∈ l, f x = .error e := by
  induction l with
  | nil =>
    cases h
  | cons x xs ih =>
    rw [mapME] at h
    cases hfx : f x with
    | error e2 =>
      rw [hfx, bindE_error] at h
      cases h
      exact ⟨x, List.mem_cons_self x xs, hfx⟩
    | ok y =>
      rw [hfx, bindE_ok] at h
      cases hxs : mapME f xs with
      | error e2 =>
        rw [hxs, bindE_error] at h
        cases h
        obtain ⟨z, hz, hfz⟩ := ih hxs
        exact ⟨z, List.mem_cons_of_mem x hz, hfz⟩
      | ok ys2 =>
        rw [hxs, bindE_ok] at h
        cases h

theorem mapME_mem_error {ε α β : Type} (f : α → Except ε β) (l : List α)
    (x : α) (e : ε) (hx : x ∈ l) (hfx : f x = .error e) :
    ∃ e2, mapME f l = .error e2 := by
  induction l with
  | nil =>
    cases hx
  | cons a as ih =>
    cases hfa : f a with
    | error e2 =>
      exact ⟨e2, by rw [mapME, hfa, bindE_error]⟩
    | ok y =>
      rcases List.mem_cons.mp hx with rfl | hx2
      · rw [hfa] at hfx
        cases hfx
      · obtain ⟨e2, h2⟩ := ih hx2
        exact ⟨e2, by rw [mapME, hfa, bindE_ok, h2, bindE_error]⟩

/-
Lemmas about the retrieved-document dictionary.
-/

theorem dictInsert_keys_nodup (m : List (String × RetrievedDoc))
    (d : RetrievedDoc) (h : (m.map Prod.fst).Nodup) :
    ((dictInsert m d).map Prod.fst).Nodup := by
  unfold dictInsert
  split_ifs with hany
  · have hkeys : (m.map (fun p => if p.1 == d.id_ then (p.1, d) else p)).map
        Prod.fst = m.map Prod.fst := by
      rw [List.map_map]
      apply List.map_congr_left
      intro p hp
      by_cases hc : p.1 = d.id_ <;> simp [hc]
    rw [hkeys]
    exact h
  · rw [List.map_append]
    have hnot : d.id_ ∉ m.map Prod.fst := by
      intro hmem
      obtain ⟨p, hp, hp2⟩ := List.mem_map.mp hmem
      apply hany
      exact List.any_eq_true.mpr ⟨p, hp, by simp [hp2]⟩
    simp only [List.map_cons, List.map_nil]
    rw [List.nodup_append]
    exact ⟨h, List.nodup_singleton _, by
      intro a ha hb
      rw [List.mem_singleton] at hb
      subst hb
      exact hnot ha⟩

theorem dictInsert_key_eq_id (m : List (String × RetrievedDoc))
    (d : RetrievedDoc) (h : ∀ p ∈ m, p.1 = p.2.id_) :
    ∀ p ∈ dictInsert m d, p.1 = p.2.id_ := by
  unfold dictInsert
  split_ifs with hany
  · intro p hp
    obtain ⟨q, hq, hq2⟩ := List.mem_map.mp hp
    by_cases hc : q.1 == d.id_
    · rw [if_pos hc] at hq2
      subst hq2
      exact eq_of_beq hc
    · rw [if_neg hc] at hq2
      subst hq2
      exact h q hq
  · intro p hp
    rcases List.mem_append.mp hp with hp1 | hp2
    · exact h p hp1
    · rw [List.mem_singleton] at hp2
      subst hp2
      rfl

theorem dictUpdate_inv (docs : List RetrievedDoc)
    (m : List (String × RetrievedDoc))
    (h1 : (m.map Prod.fst).Nodup) (h2 : ∀ p ∈ m, p.1 = p.2.id_) :
    ((dictUpdate m docs).map Prod.fst).Nodup ∧
      ∀ p ∈ dictUpdate m docs, p.1 = p.2.id_ := by
  induction docs generalizing m with
  | nil =>
    exact ⟨h1, h2⟩
  | cons d ds ih =>
    exact ih (dictInsert m d) (dictInsert_keys_nodup m d h1)
      (dictInsert_key_eq_id m d h2)

theorem queriesFold_inv (queries : List String)
    (retrieve : String → List RetrievedDoc)
    (m : List (String × RetrievedDoc))
    (h1 : (m.map Prod.fst).Nodup) (h2 : ∀ p ∈ m, p.1 = p.2.id_) :
    ((queries.foldl (fun m query => dictUpdate m (retrieve query)) m).map
        Prod.fst).Nodup ∧
      ∀ p ∈ queries.foldl (fun m query => dictUpdate m (retrieve query)) m,
        p.1 = p.2.id_ := by
  induction queries generalizing m with
  | nil =>
    exact ⟨h1, h2⟩
  | cons q qs ih =>
    obtain ⟨ha, hb⟩ := dictUpdate_inv (retrieve q) m h1 h2
    exact ih (dictUpdate m (retrieve q)) ha hb

/-- Claim C7: within one `handle_guideline_match` invocation, the
documents obtained from the retrieval capability across all generated
queries are deduplicated by document id before use — the document list
whose contents form the guideline text contains at most one document per
id, even when repeated or overlapping queries return the same document
several times. -/
theorem guideline_docs_dedup_by_id (retrieve : String → List RetrievedDoc)
    (queries : List String) :
    ((guideline_docs retrieve queries).map (fun d => d.id_)).Nodup ∧
    (guideline_docs retrieve queries).Pairwise (fun d1 d2 => d1.id_ ≠ d2.id_) := by
  obtain ⟨h1, h2⟩ := queriesFold_inv queries retrieve [] (by simp) (by simp)
  have hids : (guideline_docs retrieve queries).map (fun d => d.id_) =
      (queries.foldl (fun m query => dictUpdate m (retrieve query)) []).map
        Prod.fst := by
    unfold guideline_docs
    rw [List.map_map]
    apply List.map_congr_left
    intro p hp
    exact (h2 p hp).symm
  have hn : ((guideline_docs retrieve queries).map (fun d => d.id_)).Nodup := by
    rw [hids]
    exact h1
  refine ⟨hn, ?_⟩
  have := hn
  rw [List.Nodup, List.pairwise_map] at this
  exact this

/-
Fan-out / fan-in lemmas.
-/

theorem gatherRun_releases_once (num : Nat) :
    ∀ (arrivals buffer : List MatchGuidelineResultEvent),
      buffer.length + arrivals.length = num → arrivals ≠ [] →
      gatherRun num buffer arrivals =
        [⟨(buffer ++ arrivals).map (fun e => (e.bundle, e.rec'))⟩] := by
  intro arrivals
  induction arrivals with
  | nil =>
    intro buffer h hne
    exact absurd rfl hne
  | cons ev rest ih =>
    intro buffer h hne
    by_cases hr : rest = []
    · subst hr
      have hlen : (buffer ++ [ev]).length = num := by
        simp only [List.length_append, List.length_singleton]
        simpa using h
      simp [gatherRun, gather_guideline_match, collect_events, hlen]
    · have hrest : 1 ≤ rest.length := by
        cases rest with
        | nil => exact absurd rfl hr
        | cons a as => simp
      have hlen : ¬ (buffer ++ [ev]).length = num := by
        simp only [List.length_append, List.length_singleton]
        simp only [List.length_cons] at h
        omega
      have hnext : (buffer ++ [ev]).length + rest.length = num := by
        simp only [List.length_append, List.length_singleton]
        simp only [List.length_cons] at h
        omega
      simp only [gatherRun, gather_guideline_match, collect_events, if_neg hlen]
      rw [ih (buffer ++ [ev]) hnext hr]
      simp

/-- Claim C1 (amended to fan-out size at least one): for every fan-out
group of N ≥ 1 condition bundles dispatched by `dispatch_guideline_match`,
the gathered-results event `GenerateCaseSummaryEvent` is emitted exactly
once and carries exactly N `(bundle, recommendation)` pairs — a
permutation of the dispatched bundles paired with their recommendations —
regardless of the order in which the N `MatchGuidelineResultEvent`
submissions arrive at `gather_guideline_match`. -/
theorem gather_releases_exactly_once
    (recOf : ConditionBundle → GuidelineRecommendation)
    (bundles : List ConditionBundle)
    (arrivals : List MatchGuidelineResultEvent)
    (hN : 1 ≤ bundles.length)
    (hperm : arrivals.Perm (childResults recOf bundles)) :
    ∃ g, gatherRun (dispatch_guideline_match bundles).1 [] arrivals = [g] ∧
      g.condition_guideline_info.length = bundles.length ∧
      g.condition_guideline_info.Perm (bundles.map (fun b => (b, recOf b))) := by
  have hchild : childResults recOf bundles =
      bundles.map (fun b => ⟨b, recOf b⟩) := by
    simp [childResults, dispatch_guideline_match, handle_guideline_match_result,
      List.map_map]
  have hlen : arrivals.length = bundles.length := by
    rw [hperm.length_eq, hchild, List.length_map]
  have hne : arrivals ≠ [] := by
    intro hnil
    rw [hnil] at hlen
    simp at hlen
    omega
  have hnum : (dispatch_guideline_match bundles).1 = bundles.length := rfl
  rw [hnum, gatherRun_releases_once bundles.length arrivals []
    (by simpa using hlen) hne]
  refine ⟨_, rfl, ?_, ?_⟩
  · simp [hlen]
  · simp only [List.nil_append]
    have hm := hperm.map (fun e : MatchGuidelineResultEvent => (e.bundle, e.rec'))
    rw [hchild, List.map_map] at hm
    exact hm

/-- Witness for C1: a fan-out of two bundles whose result events arrive in
the opposite order still yields exactly one gathered event with both
pairs. -/
theorem gather_releases_exactly_once_witness :
    ∃ g, gatherRun (dispatch_guideline_match [bundleW1, bundleW2]).1 []
        [⟨bundleW2, recW bundleW2⟩, ⟨bundleW1, recW bundleW1⟩] = [g] ∧
      g.condition_guideline_info.length = 2 ∧
      g.condition_guideline_info.Perm
        ([bundleW1, bundleW2].map (fun b => (b, recW b))) :=
  gather_releases_exactly_once recW [bundleW1, bundleW2]
    [⟨bundleW2, recW bundleW2⟩, ⟨bundleW1, recW bundleW1⟩]
    (by decide) (by decide)

/-- Claim C1 counterexample (the claim as stated, with N ≥ 0, is false at
N = 0): an empty condition-bundle list dispatches zero children, so
`gather_guideline_match` is never triggered and the gathered event is
emitted zero times, not exactly once. -/
theorem gather_zero_fanout_never_releases :
    (dispatch_guideline_match ([] : List ConditionBundle)).2.length = 0 ∧
    (gatherRun (dispatch_guideline_match ([] : List ConditionBundle)).1 []
      []).length ≠ 1 := by
  constructor <;> decide

/-- Claim C3 at the failing input: with an empty condition-bundle list,
`dispatch_guideline_match` emits no `MatchGuidelineEvent`, so no
`MatchGuidelineResultEvent` ever arrives, the fan-in step never runs, and
the run produces zero terminal results — it stalls instead of releasing
the downstream step with an empty collection (the workflow is constructed
with `timeout=None`, app.py line 635, so no timeout fires either). -/
theorem zero_fanout_stalls :
    (dispatch_guideline_match ([] : List ConditionBundle)).2 = [] ∧
    stopEventCount (dispatch_guideline_match ([] : List ConditionBundle)).1
      [] = 0 :=
  ⟨rfl, rfl⟩

/-- Claim C4: a capability error raised by any one fan-out child aborts
the whole run — awaiting the run handle surfaces an error, and no list of
`(bundle, recommendation)` pairs (in particular no subset of completed
sibling results) is ever returned to the caller. -/
theorem child_error_aborts_run
    (outcomes : List (Except String MatchGuidelineResultEvent))
    (err : String) (h : Except.error err ∈ outcomes) :
    (∃ e, await_run outcomes = .error e) ∧
    ∀ pairs, await_run outcomes ≠ .ok pairs := by
  obtain ⟨e2, h2⟩ := mapME_mem_error id outcomes (Except.error err) err h rfl
  constructor
  · exact ⟨e2, by rw [await_run, h2, bindE_error]⟩
  · intro pairs hcontra
    rw [await_run, h2, bindE_error] at hcontra
    cases hcontra

/-- Witness for C4: one completed sibling plus one failed child abort the
run. -/
theorem child_error_aborts_run_witness :
    ∃ e, await_run [Except.ok ⟨bundleW1, recW bundleW1⟩,
      Except.error "quota"] = .error e :=
  (child_error_aborts_run
    [Except.ok ⟨bundleW1, recW bundleW1⟩, Except.error "quota"]
    "quota" (by decide)).1

/-- Claim C5: `ctx.get` on a key that no prior step has set raises a usage
error rather than returning a silent default; when the producing step ran
first (the key was set), the error branch is unreachable and the stored
value is returned. -/
theorem ctx_get_missing_key_errors {α : Type} (store : List (String × α))
    (key : String) :
    ((∀ v, (key, v) ∉ store) →
      ∃ msg, ctxGet store key = .error (.valueError msg)) ∧
    (∀ v, ctxGet (ctxSet store key v) key = .ok v) ∧
    ((∃ v, (key, v) ∈ store) → ∃ v, ctxGet store key = .ok v) := by
  refine ⟨?_, ?_, ?_⟩
  · intro h
    cases hf : store.find? (fun p => p.1 == key) with
    | some p =>
      exfalso
      have hp1 := List.find?_some hf
      simp only [beq_iff_eq] at hp1
      have hpm : p ∈ store := List.mem_of_find?_eq_some hf
      have hpe : (key, p.2) = p := by
        cases p with
        | mk a b =>
          simp only at hp1
          rw [hp1]
      rw [← hpe] at hpm
      exact h p.2 hpm
    | none =>
      exact ⟨_, by rw [ctxGet, hf]⟩
  · intro v
    simp [ctxGet, ctxSet, List.find?]
  · rintro ⟨v, hv⟩
    cases hf : store.find? (fun p => p.1 == key) with
    | some p =>
      exact ⟨p.2, by rw [ctxGet, hf]⟩
    | none =>
      exfalso
      have := List.find?_eq_none.mp hf (key, v) hv
      simp at this

/-- Witness for C5: reading `patient_info` from an empty Context store is
an error. -/
theorem ctx_get_missing_key_errors_witness :
    ∃ msg, ctxGet ([] : List (String × Nat)) "patient_info" =
      .error (.valueError msg) :=
  (ctx_get_missing_key_errors ([] : List (String × Nat)) "patient_info").1
    (by simp)

/-- Claim C6: in the workflow's registration table each non-terminal,
non-log event type (StartEvent, PatientInfoEvent, ConditionBundleEvent,
MatchGuidelineEvent, MatchGuidelineResultEvent, GenerateCaseSummaryEvent)
has exactly one declared consuming step; construction accepts this table,
and any table in which some routable event type lacks a unique consumer
is rejected as a configuration error at construction time. -/
theorem registry_unique_consumers :
    (∀ t ∈ ([.startEv, .patientInfoEv, .conditionBundleEv, .matchGuidelineEv,
        .matchGuidelineResultEv, .generateCaseSummaryEv] : List EvType),
      (consumersOf guidelineWorkflowSteps t).length = 1) ∧
    constructWorkflow guidelineWorkflowSteps = .ok guidelineWorkflowSteps ∧
    (∀ steps : List StepDecl,
      (∃ t ∈ routableTypes steps, (consumersOf steps t).length ≠ 1) →
      ∃ msg, constructWorkflow steps = .error msg) := by
  refine ⟨by decide, by decide, ?_⟩
  rintro steps ⟨t, ht, hlen⟩
  unfold constructWorkflow
  split_ifs with hall
  · exfalso
    have hb := List.all_eq_true.mp hall t ht
    exact hlen (by simpa using hb)
  · exact ⟨_, rfl⟩

/-- Witness for C6: a table with two steps consuming `StartEvent` and none
consuming `PatientInfoEvent` is rejected at construction. -/
theorem registry_unique_consumers_witness :
    ∃ msg, constructWorkflow
      [⟨"a", EvType.startEv, EvType.patientInfoEv⟩,
       ⟨"b", EvType.startEv, EvType.stopEv⟩] = .error msg :=
  registry_unique_consumers.2.2
    [⟨"a", EvType.startEv, EvType.patientInfoEv⟩,
     ⟨"b", EvType.startEv, EvType.stopEv⟩]
    ⟨EvType.patientInfoEv, by decide, by decide⟩

/-- Claim C2 counterexample: with every cached artifact present
(`fullCache`) the run still performs external capability calls — here a
single bundle with one generated query produces four calls (two
structured generations and one retrieval in `handle_guideline_match`,
one structured generation in `generate_output`), not zero. -/
theorem full_cache_still_calls_capabilities :
    totalCapabilityCalls fullCache [1] = 4 ∧
    totalCapabilityCalls fullCache [1] ≠ 0 := by
  constructor <;> decide

/-- Claim C2 (amended): with every cached artifact present, only the
patient-info and condition-bundles stages skip their work (zero
capability calls), while `handle_guideline_match` still performs
`2 + numQueries` calls per bundle regardless of the cache state and
`generate_output` always performs one, so a fully cached re-run performs
`sum (q + 2 for q in queryCounts) + 1` external calls. -/
theorem cache_skip_limited_to_first_two_stages (cache : CacheState)
    (queryCounts : List Nat) :
    parse_patient_info_capability_calls fullCache = 0 ∧
    create_condition_bundles_capability_calls fullCache = 0 ∧
    (∀ q, handle_guideline_match_capability_calls cache q = q + 2) ∧
    generate_output_capability_calls cache = 1 ∧
    totalCapabilityCalls fullCache queryCounts =
      (queryCounts.map (fun q => q + 2)).sum + 1 := by
  refine ⟨rfl, rfl, ?_, rfl, ?_⟩
  · intro q
    simp [handle_guideline_match_capability_calls]
    omega
  · have h1 : create_condition_bundles_capability_calls fullCache = 0 := rfl
    simp only [totalCapabilityCalls, parse_patient_info_capability_calls,
      gather_guideline_match_capability_calls,
      generate_output_capability_calls, h1]
    have hmap : queryCounts.map
        (handle_guideline_match_capability_calls fullCache) =
        queryCounts.map (fun q => q + 2) := by
      apply List.map_congr_left
      intro q hq
      simp [handle_guideline_match_capability_calls]
      omega
    rw [hmap]
    omega

/-
Error-shape lemmas: no helper of the parser ever raises a ValueError; the
only ValueError site is the missing-Patient check.
-/

theorem VEFree_ok {α : Type} (a : α) :
    VEFree (Except.ok a : Except PyErr α) := by
  intro msg h
  cases h

theorem VEFree_bind {α β : Type} {x : Except PyErr α}
    {f : α → Except PyErr β} (hx : VEFree x) (hf : ∀ a, VEFree (f a)) :
    VEFree (x >>= f) := by
  intro msg h
  cases x with
  | error e =>
    rw [bindE_error] at h
    injection h with h2
    exact hx msg (by rw [h2])
  | ok a =>
    rw [bindE_ok] at h
    exact hf a msg h

theorem VEFree_firstOr {α : Type} (l : Option (List α)) (d : α) :
    VEFree (firstOr l d) := by
  intro msg h
  rcases l with _ | (_ | ⟨x, xs⟩) <;> simp [firstOr] at h

theorem VEFree_firstCoding (cc : Option CodeableConcept) :
    VEFree (firstCoding cc) := by
  intro msg h
  rcases cc with _ | ⟨_ | (_ | ⟨x, xs⟩)⟩ <;> simp [firstCoding] at h

theorem VEFree_firstCodingDisplay (ccs : Option (List CodeableConcept)) :
    VEFree (firstCodingDisplay ccs) := by
  intro msg h
  rcases ccs with _ | (_ | ⟨⟨_ | (_ | ⟨y, ys⟩)⟩, xs⟩) <;>
    simp [firstCodingDisplay] at h

theorem VEFree_firstDosageText (ds : Option (List Dosage)) :
    VEFree (firstDosageText ds) := by
  intro msg h
  rcases ds with _ | (_ | ⟨x, xs⟩) <;> simp [firstDosageText] at h

theorem VEFree_extractDemographics (pr : Resource) :
    VEFree (extractDemographics pr) := by
  unfold extractDemographics
  exact VEFree_bind (VEFree_firstOr _ _)
    (fun a => VEFree_bind (VEFree_firstOr _ _) (fun g => VEFree_ok _))

theorem VEFree_extractConditionInfo (c : Resource) :
    VEFree (extractConditionInfo c) := by
  unfold extractConditionInfo
  exact VEFree_bind (VEFree_firstCoding _)
    (fun a => VEFree_bind (VEFree_firstCoding _) (fun b => VEFree_ok _))

theorem VEFree_buildConditions (fa : Bool) :
    ∀ l : List Resource, VEFree (buildConditions fa l) := by
  intro l
  induction l with
  | nil =>
    exact VEFree_ok _
  | cons c rest ih =>
    rw [buildConditions]
    apply VEFree_bind (VEFree_extractConditionInfo c)
    intro ci
    apply VEFree_bind ih
    intro tail
    split_ifs <;> exact VEFree_ok _

theorem VEFree_get_encounter_date (pd : String → Option Int) (e : Resource) :
    VEFree (get_encounter_date pd e) := by
  intro msg h
  unfold get_encounter_date at h
  rcases hps : e.periodStart with _ | s <;> rw [hps] at h <;>
    simp only [] at h
  · simp at h
  · split_ifs at h with hs
    · simp at h
    · rcases hpd : pd s with _ | d <;> rw [hpd] at h <;> simp at h

theorem VEFree_mapME {α β : Type} (f : α → Except PyErr β)
    (hf : ∀ x, VEFree (f x)) (l : List α) : VEFree (mapME f l) := by
  intro msg h
  obtain ⟨x, hx, hfx⟩ := mapME_error_shape f l _ h
  exact hf x msg hfx

theorem VEFree_encounterKeyed (pd : String → Option Int)
    (encounters : List Resource) : VEFree (encounterKeyed pd encounters) := by
  unfold encounterKeyed
  apply VEFree_mapME
  intro e
  exact VEFree_bind (VEFree_get_encounter_date pd e) (fun d => VEFree_ok _)

theorem VEFree_buildEncounterInfo (e : Resource) :
    VEFree (buildEncounterInfo e) := by
  unfold buildEncounterInfo
  exact VEFree_bind (VEFree_firstCodingDisplay _)
    (fun a => VEFree_bind (VEFree_firstCodingDisplay _) (fun b => VEFree_ok _))

theorem VEFree_encounterPipeline (pd : String → Option Int)
    (encounters : List Resource) : VEFree (encounterPipeline pd encounters) := by
  unfold encounterPipeline
  apply VEFree_bind (VEFree_encounterKeyed pd encounters)
  intro keyed
  exact VEFree_mapME _
    (fun p : Resource × Int => VEFree_buildEncounterInfo p.1) _

theorem VEFree_buildMedications :
    ∀ l : List Resource, VEFree (buildMedications l) := by
  intro l
  induction l with
  | nil =>
    exact VEFree_ok _
  | cons m rest ih =>
    rw [buildMedications]
    split_ifs
    · apply VEFree_bind (VEFree_firstCoding _)
      intro a
      apply VEFree_bind (VEFree_firstDosageText _)
      intro b
      apply VEFree_bind ih
      intro tail
      exact VEFree_ok _
    · exact ih

theorem parse_VEFree_of_patient (pd : String → Option Int)
    (entries : List Resource) (fa : Bool) (pr : Resource)
    (hp : lastPatient entries = some pr) :
    VEFree (parse_synthea_patient pd entries fa) := by
  unfold parse_synthea_patient
  rw [hp]
  apply VEFree_bind (VEFree_extractDemographics pr)
  intro d
  apply VEFree_bind (VEFree_buildConditions fa _)
  intro cs
  apply VEFree_bind (VEFree_encounterPipeline pd _)
  intro es
  apply VEFree_bind (VEFree_buildMedications _)
  intro ms
  exact VEFree_ok _

theorem lastPatient_eq_none_iff (entries : List Resource) :
    lastPatient entries = none ↔
      ∀ r ∈ entries, r.resourceType ≠ some "Patient" := by
  suffices h : ∀ acc : Option Resource,
      (entries.foldl
        (fun acc r => if r.resourceType = some "Patient" then some r else acc)
        acc) = none ↔
      (acc = none ∧ ∀ r ∈ entries, r.resourceType ≠ some "Patient") by
    have h2 := h none
    simpa [lastPatient] using h2
  intro acc
  induction entries generalizing acc with
  | nil =>
    simp
  | cons r rs ih =>
    simp only [List.foldl_cons]
    by_cases hr : r.resourceType = some "Patient"
    · rw [if_pos hr, ih (some r)]
      simp [hr]
    · rw [if_neg hr, ih acc]
      simp [List.forall_mem_cons, hr]

theorem parse_ok_elim (pd : String → Option Int) (entries : List Resource)
    (fa : Bool) (info : PatientInfo)
    (h : parse_synthea_patient pd entries fa = .ok info) :
    ∃ pr d, lastPatient entries = some pr ∧
      extractDemographics pr = .ok d ∧
      buildConditions fa (conditionResources entries) = .ok info.conditions ∧
      encounterPipeline pd (encounterResources entries) =
        .ok info.recent_encounters ∧
      buildMedications (medicationResources entries) =
        .ok info.current_medications ∧
      info.given_name = d.1 ∧ info.family_name = d.2.1 ∧
      info.birth_date = d.2.2.1 ∧ info.gender = d.2.2.2 := by
  unfold parse_synthea_patient at h
  split at h
  case h_1 =>
    cases h
  case h_2 pr hp =>
    cases hd : extractDemographics pr with
    | error e =>
      rw [hd, bindE_error] at h
      cases h
    | ok d =>
      rw [hd, bindE_ok] at h
      cases hc : buildConditions fa (conditionResources entries) with
      | error e =>
        rw [hc, bindE_error] at h
        cases h
      | ok cs =>
        rw [hc, bindE_ok] at h
        cases he : encounterPipeline pd (encounterResources entries) with
        | error e =>
          rw [he, bindE_error] at h
          cases h
        | ok es =>
          rw [he, bindE_ok] at h
          cases hm : buildMedications (medicationResources entries) with
          | error e =>
            rw [hm, bindE_error] at h
            cases h
          | ok ms =>
            rw [hm, bindE_ok] at h
            cases h
            exact ⟨pr, d, hp, hd, rfl, rfl, rfl, rfl, rfl, rfl, rfl⟩

/-- Claim C8 (amended).  The missing-Patient `ValueError` of app.py
line 97 is raised if and only if the loaded bundle contains no entry
whose resourceType is Patient.  However it is not the only `ValueError`
the function can raise: any error it raises that is a `ValueError`
(`isinstance`-wise) is either that missing-Patient error — so the bundle
has no Patient — or a `dateutil` `ParserError` (a `ValueError` subclass)
from parsing a non-empty, unparseable encounter `period.start`, which can
happen with a Patient present.  Whenever the function returns a
PatientInfo, its demographics are the ones extracted from the LAST
Patient resource of the bundle, not the first. -/
theorem parse_valueerror_behaviour (pd : String → Option Int)
    (entries : List Resource) (fa : Bool) :
    ((parse_synthea_patient pd entries fa =
        .error (.valueError "No Patient resource found in the provided file.")) ↔
      ∀ r ∈ entries, r.resourceType ≠ some "Patient") ∧
    (∀ e, parse_synthea_patient pd entries fa = .error e →
      e.isValueError = true →
      (∀ r ∈ entries, r.resourceType ≠ some "Patient") ∨ e = .parserError) ∧
    (∀ info, parse_synthea_patient pd entries fa = .ok info →
      ∃ pr, lastPatient entries = some pr ∧
        ∃ d, extractDemographics pr = .ok d ∧
          info.given_name = d.1 ∧ info.family_name = d.2.1 ∧
          info.birth_date = d.2.2.1 ∧ info.gender = d.2.2.2) := by
  refine ⟨⟨?_, ?_⟩, ?_, ?_⟩
  · intro hmsg
    rw [← lastPatient_eq_none_iff]
    cases ho : lastPatient entries with
    | none =>
      rfl
    | some pr =>
      exact absurd hmsg (parse_VEFree_of_patient pd entries fa pr ho
        "No Patient resource found in the provided file.")
  · intro h
    have hn : lastPatient entries = none :=
      (lastPatient_eq_none_iff entries).mpr h
    unfold parse_synthea_patient
    rw [hn]
  · intro e he hive
    cases ho : lastPatient entries with
    | none =>
      left
      exact (lastPatient_eq_none_iff entries).mp ho
    | some pr =>
      right
      cases e with
      | valueError msg =>
        exact absurd he (parse_VEFree_of_patient pd entries fa pr ho msg)
      | parserError =>
        rfl
      | indexError =>
        simp [PyErr.isValueError] at hive
      | attributeError =>
        simp [PyErr.isValueError] at hive
  · intro info h
    obtain ⟨pr, d, hp, hd, _, _, _, h1, h2, h3, h4⟩ :=
      parse_ok_elim pd entries fa info h
    exact ⟨pr, hp, d, hd, h1, h2, h3, h4⟩

/-- Witness for C8: a bundle with a single Condition entry and no Patient
entry makes the parser raise the missing-Patient `ValueError`. -/
theorem parse_valueerror_behaviour_witness :
    parse_synthea_patient pdW [condAsthma] true =
      .error (.valueError "No Patient resource found in the provided file.") :=
  ((parse_valueerror_behaviour pdW [condAsthma] true).1).mpr (by decide)

/-- Claim C8 counterexample, refuting both halves of the claim as stated:
(i) the parser keeps the LAST Patient resource, not the first — with two
Patient resources, Alpha first and Beta second, the returned given name
is Beta, not Alpha; (ii) "raises a ValueError only when no Patient is
present" fails — with a Patient present and one encounter whose non-empty
`period.start` dateutil cannot parse, the function raises `ParserError`,
which subclasses `ValueError`. -/
theorem parse_uses_last_patient_counterexample :
    ((parse_synthea_patient pdW [patAlpha, patBeta] true).map
      PatientInfo.given_name = .ok "Beta" ∧
    (extractDemographics patAlpha).map (fun d => d.1) = .ok "Alpha" ∧
    ("Beta" : String) ≠ "Alpha") ∧
    (parse_synthea_patient pdNone [patAlpha, encW "not-a-date"] true =
      .error .parserError ∧
    PyErr.parserError.isValueError = true) :=
  ⟨⟨rfl, rfl, by decide⟩, rfl, rfl⟩

/-
Condition-filter lemmas.
-/

theorem buildConditions_sound (fa : Bool) :
    ∀ (l : List Resource) (cs : List ConditionInfo),
      buildConditions fa l = .ok cs →
      ∀ ci ∈ cs, ci.display ∉ excludedConditions ∧
        (fa = true → ci.clinical_status = "active") := by
  intro l
  induction l with
  | nil =>
    intro cs h ci hci
    rw [buildConditions] at h
    cases h
    cases hci
  | cons c rest ih =>
    intro cs h ci hci
    rw [buildConditions] at h
    cases hec : extractConditionInfo c with
    | error e =>
      rw [hec, bindE_error] at h
      cases h
    | ok ci0 =>
      rw [hec, bindE_ok] at h
      cases ht : buildConditions fa rest with
      | error e =>
        rw [ht, bindE_error] at h
        cases h
      | ok tail =>
        rw [ht, bindE_ok] at h
        by_cases hex : ci0.display ∈ excludedConditions
        · rw [if_pos hex] at h
          cases h
          exact ih _ ht ci hci
        · rw [if_neg hex] at h
          cases fa with
          | true =>
            rw [if_pos rfl] at h
            by_cases hst : ci0.clinical_status = "active"
            · rw [if_pos hst] at h
              cases h
              rcases List.mem_cons.mp hci with rfl | hci2
              · exact ⟨hex, fun _ => hst⟩
              · exact ih _ ht ci hci2
            · rw [if_neg hst] at h
              cases h
              exact ih _ ht ci hci
          | false =>
            rw [if_neg (by simp)] at h
            cases h
            rcases List.mem_cons.mp hci with rfl | hci2
            · exact ⟨hex, fun hcontra => by cases hcontra⟩
            · exact ih _ ht ci hci2

theorem buildConditions_complete :
    ∀ (l : List Resource) (cs : List ConditionInfo),
      buildConditions false l = .ok cs →
      ∀ c ∈ l, ∀ ci, extractConditionInfo c = .ok ci →
        ci.display ∉ excludedConditions → ci ∈ cs := by
  intro l
  induction l with
  | nil =>
    intro cs h c hc
    cases hc
  | cons c0 rest ih =>
    intro cs h c hc ci hex hnotex
    rw [buildConditions] at h
    cases hec : extractConditionInfo c0 with
    | error e =>
      rw [hec, bindE_error] at h
      cases h
    | ok ci0 =>
      rw [hec, bindE_ok] at h
      cases ht : buildConditions false rest with
      | error e =>
        rw [ht, bindE_error] at h
        cases h
      | ok tail =>
        rw [ht, bindE_ok] at h
        rw [if_neg (by simp : ¬ (false = true))] at h
        rcases List.mem_cons.mp hc with rfl | hc2
        · rw [hec] at hex
          injection hex with hex2
          subst hex2
          rw [if_neg hnotex] at h
          cases h
          exact List.mem_cons_self _ _
        · by_cases hx : ci0.display ∈ excludedConditions
          · rw [if_pos hx] at h
            cases h
            exact ih _ ht c hc2 ci hex hnotex
          · rw [if_neg hx] at h
            cases h
            exact List.mem_cons_of_mem _ (ih _ ht c hc2 ci hex hnotex)

/-- Claim C10: every ConditionInfo in a returned PatientInfo has a display
outside the excluded set, and with `filter_active = true` (the default)
its clinical status is `"active"`; with `filter_active = false` every
Condition resource whose extracted display is not excluded is included,
whatever its clinical status. -/
theorem conditions_filtered (pd : String → Option Int)
    (entries : List Resource) (fa : Bool) (info : PatientInfo)
    (h : parse_synthea_patient pd entries fa = .ok info) :
    (∀ ci ∈ info.conditions, ci.display ∉ excludedConditions ∧
      (fa = true → ci.clinical_status = "active")) ∧
    (fa = false → ∀ c ∈ conditionResources entries, ∀ ci,
      extractConditionInfo c = .ok ci → ci.display ∉ excludedConditions →
      ci ∈ info.conditions) := by
  obtain ⟨pr, d, hp, hd, hc, he, hm, h1, h2, h3, h4⟩ :=
    parse_ok_elim pd entries fa info h
  constructor
  · exact buildConditions_sound fa _ _ hc
  · intro hfa
    subst hfa
    exact buildConditions_complete _ _ hc

/-- Witness for C10: parsing a bundle with an active asthma condition, a
resolved condition and an excluded condition under the default active
filter keeps only the asthma condition, which is not excluded and is
active. -/
theorem conditions_filtered_witness :
    parse_synthea_patient pdW [patAlpha, condAsthma, condResolved,
      condExcluded] true = .ok infoC ∧
    (ciAsthma.display ∉ excludedConditions ∧
      (true = true → ciAsthma.clinical_status = "active")) :=
  ⟨by decide,
   (conditions_filtered pdW [patAlpha, condAsthma, condResolved, condExcluded]
     true infoC (by decide)).1 ciAsthma (by decide)⟩

/-- Claim C9: for every successfully parsed bundle, the returned
`recent_encounters` list has length `min 3 (number of Encounter
resources)`, and its entries are built from a maximal-by-date selection:
the parser keys every encounter by its parsed start date, and there is a
split of the keyed encounters into a dropped part and a selected part of
size `min 3 n` such that every dropped encounter's date is at most every
selected encounter's date (i.e. the selected ones are the most recent),
and the returned `EncounterInfo` records are built exactly from the
selected part. -/
theorem recent_encounters_most_recent (pd : String → Option Int)
    (entries : List Resource) (fa : Bool) (info : PatientInfo)
    (h : parse_synthea_patient pd entries fa = .ok info) :
    info.recent_encounters.length =
      min 3 (encounterResources entries).length ∧
    ∃ keyed dropped selected : List (Resource × Int),
      encounterKeyed pd (encounterResources entries) = .ok keyed ∧
      keyed.Perm (dropped ++ selected) ∧
      selected.length = min 3 (encounterResources entries).length ∧
      (∀ a ∈ dropped, ∀ b ∈ selected, a.2 ≤ b.2) ∧
      mapME (fun p => buildEncounterInfo p.1) selected =
        .ok info.recent_encounters := by
  obtain ⟨pr, d, hp, hd, hc, he, hm, h1, h2, h3, h4⟩ :=
    parse_ok_elim pd entries fa info h
  rw [encounterPipeline] at he
  cases hk : encounterKeyed pd (encounterResources entries) with
  | error e =>
    rw [hk, bindE_error] at he
    cases he
  | ok keyed =>
    rw [hk, bindE_ok] at he
    have hkl : keyed.length = (encounterResources entries).length :=
      mapME_ok_length _ _ _ hk
    have hperm0 : (List.insertionSort encLE keyed).Perm keyed :=
      List.perm_insertionSort encLE keyed
    have hsl : (List.insertionSort encLE keyed).length = keyed.length :=
      hperm0.length_eq
    have hsorted : List.Sorted encLE (List.insertionSort encLE keyed) :=
      List.sorted_insertionSort encLE keyed
    by_cases hgt : (List.insertionSort encLE keyed).length > 3
    · have hlt : lastThree (List.insertionSort encLE keyed) =
          (List.insertionSort encLE keyed).drop
            ((List.insertionSort encLE keyed).length - 3) := by
        rw [lastThree, if_pos hgt]
      rw [hlt] at he
      have hmlen : info.recent_encounters.length =
          ((List.insertionSort encLE keyed).drop
            ((List.insertionSort encLE keyed).length - 3)).length :=
        mapME_ok_length _ _ _ he
      rw [List.length_drop] at hmlen
      constructor
      · rw [hmlen]
        omega
      · refine ⟨keyed,
          (List.insertionSort encLE keyed).take
            ((List.insertionSort encLE keyed).length - 3),
          (List.insertionSort encLE keyed).drop
            ((List.insertionSort encLE keyed).length - 3),
          rfl, ?_, ?_, ?_, he⟩
        · rw [List.take_append_drop]
          exact hperm0.symm
        · rw [List.length_drop]
          omega
        · intro a ha b hb
          have hsp : List.Sorted encLE
              ((List.insertionSort encLE keyed).take
                ((List.insertionSort encLE keyed).length - 3) ++
               (List.insertionSort encLE keyed).drop
                ((List.insertionSort encLE keyed).length - 3)) := by
            rw [List.take_append_drop]
            exact hsorted
          exact (List.pairwise_append.mp hsp).2.2 a ha b hb
    · have hlt : lastThree (List.insertionSort encLE keyed) =
          List.insertionSort encLE keyed := by
        rw [lastThree, if_neg hgt]
      rw [hlt] at he
      have hmlen : info.recent_encounters.length =
          (List.insertionSort encLE keyed).length :=
        mapME_ok_length _ _ _ he
      constructor
      · rw [hmlen]
        omega
      · refine ⟨keyed, [], List.insertionSort encLE keyed, rfl, ?_, ?_, ?_, he⟩
        · simpa using hperm0.symm
        · omega
        · intro a ha b hb
          cases ha

/-- Witness for C9: a bundle with four encounters (date keys 1, 4, 2, 3)
yields exactly the three most recent encounters. -/
theorem recent_encounters_most_recent_witness :
    parse_synthea_patient pdW [patAlpha, encW "1", encW "4444", encW "22",
      encW "333"] true = .ok infoE ∧
    infoE.recent_encounters.length = min 3 (encounterResources [patAlpha,
      encW "1", encW "4444", encW "22", encW "333"]).length :=
  ⟨by decide,
   (recent_encounters_most_recent pdW [patAlpha, encW "1", encW "4444",
     encW "22", encW "333"] true infoE (by decide)).1⟩

end PatientCaseSummary
